import Mathlib

/-!
Verification of the tabtabtab-lib extension contract and its response/data
model, shallowly embedded from

  * src/tabtabtab_lib/extension_interface.py
  * src/tabtabtab_lib/extension_directory.py
  * src/tabtabtab_lib/sse_interface.py

Python dictionaries are modelled as insertion-ordered association lists over a
small JSON-like value type; the serializers (`to_dict`) become pure Lean
functions over those lists.
-/

/-- JSON-compatible values produced by the serializers: strings and nested
string-keyed objects (the only shapes the source emits). -/
inductive JValue where
  | str : String → JValue
  | obj : List (String × JValue) → JValue

/-- A Python dictionary, kept in insertion order. -/
abbrev Dict := List (String × JValue)

/-- The keys of a dictionary, in insertion order. -/
def Dict.keys (d : Dict) : List String := d.map Prod.fst

/-- `NotificationStatus` (extension_interface.py): the closed status tag set. -/
inductive NotificationStatus where
  | PENDING
  | READY
  | ERROR
deriving DecidableEq

/-- The string payload of each `NotificationStatus` member, as in the Python
enum (`PENDING = "pending"`, `READY = "ready"`, `ERROR = "error"`). -/
def NotificationStatus.value : NotificationStatus → String
  | .PENDING => "pending"
  | .READY => "ready"
  | .ERROR => "error"

/-- `Notification` (extension_interface.py). -/
structure Notification where
  request_id : String
  title : String
  detail : String
  content : String
  status : NotificationStatus
deriving DecidableEq

/-- `Notification.to_dict`. -/
def Notification.to_dict (n : Notification) : Dict :=
  [ ("notification_request_id", .str n.request_id),
    ("notification_title", .str n.title),
    ("notification_detail", .str n.detail),
    ("notification_content", .str n.content),
    ("notification_status", .str n.status.value) ]

/-- `ImmediatePaste` (extension_interface.py). -/
structure ImmediatePaste where
  content : String
deriving DecidableEq

/-- `ImmediatePaste.to_dict`. -/
def ImmediatePaste.to_dict (p : ImmediatePaste) : Dict :=
  [("immediate_paste_content", .str p.content)]

/-- `CopyResponse` (extension_interface.py). The dataclass declares the field
as `notification: Notification`, but `to_dict` guards on Python truthiness
(`if self.notification:`), so the runtime value `None` is representable and
handled; we therefore model the field as an `Option`. A present
`Notification` instance is always truthy in Python. -/
structure CopyResponse where
  notification : Option Notification
deriving DecidableEq

/-- `CopyResponse.to_dict`: emits the `notification` entry exactly when the
notification is present (truthy); no other entry is ever produced. -/
def CopyResponse.to_dict (c : CopyResponse) : Dict :=
  match c.notification with
  | some n => [("notification", .obj n.to_dict)]
  | none => []

/-- The union `paste: Union[ImmediatePaste, Notification]` of `PasteResponse`,
as a sum with an explicit tag. -/
inductive Paste where
  | notification : Notification → Paste
  | immediatePaste : ImmediatePaste → Paste
deriving DecidableEq

/-- `PasteResponse` (extension_interface.py): wraps the `paste` union. -/
structure PasteResponse where
  paste : Paste
deriving DecidableEq

/-- `PasteResponse.to_dict`: dispatches on the runtime branch of the union
(`isinstance(self.paste, Notification)` first, then
`isinstance(self.paste, ImmediatePaste)`). -/
def PasteResponse.to_dict (r : PasteResponse) : Dict :=
  match r.paste with
  | .notification n => [("notification", .obj n.to_dict)]
  | .immediatePaste p => [("immediate_paste", .obj p.to_dict)]

/-- `OnContextResponse.ExtensionContext` (extension_interface.py): the nested
dataclass describing one context chunk. -/
structure OnContextResponse.ExtensionContext where
  description : String
  context : String
deriving DecidableEq

/-- `OnContextResponse` (extension_interface.py): an ordered sequence of
context chunks. -/
structure OnContextResponse where
  contexts : List OnContextResponse.ExtensionContext
deriving DecidableEq

/-- Modelled from the spec: `OnContextResponse` has no serializer under src/
(the source declares only the record); spec section 6 gives its wire shape as
an ordered list of description/context mappings, one per `ExtensionContext`,
in order. -/
def OnContextResponse.to_list (r : OnContextResponse) : List Dict :=
  r.contexts.map fun c =>
    [("description", .str c.description), ("context", .str c.context)]

/-- Modelled from the spec: the current contract revision of `PasteResponse`,
whose operation `is_accepted` is not under src/ (src/ holds only the legacy
revision, whose `paste` field is mandatory and which has no processing flag).
Per the spec it wraps an optional paste payload plus the `is_processing_task`
flag. -/
structure PasteResponseV2 where
  paste : Option Paste
  is_processing_task : Bool
deriving DecidableEq

/-- Modelled from the spec: `PasteResponse.is_accepted()` is true iff a paste
payload is present or `is_processing_task` is true. -/
def PasteResponseV2.is_accepted (r : PasteResponseV2) : Bool :=
  r.paste.isSome || r.is_processing_task

/-- `ExtensionDescriptor` (extension_directory.py). In the source,
`extension_id` draws from the `BaseExtensionID` enum and `dependencies` from
`BaseExtensionDependencies`; both are empty base enums meant to be populated by
downstream registries, so identifiers are modelled as strings. The
`extension_class` reference to the implementing class is modelled by its
name. -/
structure ExtensionDescriptor where
  extension_id : String
  description : String
  dependencies : List String
  extension_class : String
deriving DecidableEq

/-- Direct dependency edges out of identifier `a` in a directory: the declared
dependencies of every descriptor registered under `a`. -/
def depsOf (ds : List ExtensionDescriptor) (a : String) : List String :=
  ((ds.filter fun d => d.extension_id == a).map fun d => d.dependencies).flatten

/-- Fuel-bounded reachability along dependency edges: `reachFuel ds n a b` is
true when some dependency path of length at most `n` leads from `a` to `b`
(length 0 included: `a` reaches itself). -/
def reachFuel (ds : List ExtensionDescriptor) : Nat → String → String → Bool
  | 0, a, b => a == b
  | n + 1, a, b => a == b || (depsOf ds a).any fun c => reachFuel ds n c b

/-- Modelled from the spec: cycle detection for a directory. No validation
code is under src/ (extension_directory.py declares only the descriptor
record); the spec requires the dependency graph across the descriptors of a
directory to be acyclic and validation to reject cycles. A cycle exists when
some descriptor has a dependency from which its own identifier is reachable
along dependency edges. -/
def hasCycle (ds : List ExtensionDescriptor) : Bool :=
  ds.any fun d =>
    d.dependencies.any fun c => reachFuel ds ds.length c d.extension_id

/-- Modelled from the spec: directory validation accepts exactly the
directories whose dependency graph is free of detected cycles. -/
def validateDirectory (ds : List ExtensionDescriptor) : Bool :=
  !hasCycle ds

/-- One recorded call to the injected sender capability
(`SSESenderInterface.send_event` in sse_interface.py). -/
structure SendEvent where
  device_id : String
  event_name : String
  data : Dict

/-- The state an `ExtensionInterface` constructor sets up: the stable
extension identifier and the (initially absent) api key. The injected sender
and LLM capabilities are modelled at their boundary: sending is recorded as a
list of `SendEvent` values instead of performing transport I/O. -/
structure ExtensionInterface where
  api_key : Option String
  extension_id : String

/-- `ExtensionInterface.send_push_notification`: serializes the notification,
adds the `extension_id` entry to the fresh dictionary (the serialized form
never contains that key, so the Python dict assignment appends it at the end),
and performs exactly one `send_event` call with event name
`extension_notification`. -/
def ExtensionInterface.send_push_notification
    (e : ExtensionInterface) (d : String) (n : Notification) :
    List SendEvent :=
  [⟨d, "extension_notification",
    n.to_dict ++ [("extension_id", .str e.extension_id)]⟩]

/-- Concrete directory entry used to witness cycle rejection. -/
def descA : ExtensionDescriptor :=
  ⟨"ext_a", "extension A", ["ext_b"], "ClassA"⟩

/-- Concrete directory entry used to witness cycle rejection. -/
def descB : ExtensionDescriptor :=
  ⟨"ext_b", "extension B", ["ext_a"], "ClassB"⟩

theorem reachFuel_self (ds : List ExtensionDescriptor) (n : Nat) (a : String) :
    reachFuel ds n a a = true := by
  cases n <;> simp [reachFuel]

theorem mem_depsOf (ds : List ExtensionDescriptor) (B : ExtensionDescriptor)
    (x : String) (hB : B ∈ ds) (hx : x ∈ B.dependencies) :
    x ∈ depsOf ds B.extension_id := by
  unfold depsOf
  rw [List.mem_flatten]
  refine ⟨B.dependencies, ?_, hx⟩
  rw [List.mem_map]
  refine ⟨B, ?_, rfl⟩
  rw [List.mem_filter]
  exact ⟨hB, by simp⟩

/-- Claim C1: serializing a `PasteResponse` produces exactly one of the keys
`notification` or `immediate_paste` — `notification` exactly when the paste
branch is a `Notification`, `immediate_paste` exactly when it is an
`ImmediatePaste`, never both and never neither. -/
theorem pasteResponse_to_dict_exactly_one_key (r : PasteResponse) :
    (Dict.keys r.to_dict = ["notification"] ↔
      ∃ n, r.paste = Paste.notification n)
  ∧ (Dict.keys r.to_dict = ["immediate_paste"] ↔
      ∃ p, r.paste = Paste.immediatePaste p)
  ∧ (Dict.keys r.to_dict = ["notification"] ∨
      Dict.keys r.to_dict = ["immediate_paste"]) := by
  cases h : r.paste <;> simp [PasteResponse.to_dict, Dict.keys, h]

/-- Claim C2: `is_accepted` is true iff a paste payload is present or
`is_processing_task` is true, and false exactly when the response carries
neither. -/
theorem pasteResponse_is_accepted_iff (r : PasteResponseV2) :
    (r.is_accepted = true ↔
      (r.paste.isSome = true ∨ r.is_processing_task = true))
  ∧ (r.is_accepted = false ↔
      (r.paste = none ∧ r.is_processing_task = false)) := by
  cases hp : r.paste <;> cases hb : r.is_processing_task <;>
    simp [PasteResponseV2.is_accepted, hp, hb]

/-- Claim C3 counterexample: a concrete `CopyResponse` whose serialization
emits only the key `notification` and no `is_processing_task` key, so the
serialized shape of a `CopyResponse` does not always include
`is_processing_task`. -/
theorem copyResponse_no_is_processing_task_key :
    Dict.keys
      (CopyResponse.to_dict
        ⟨some ⟨"r1", "t", "d", "c", NotificationStatus.PENDING⟩⟩)
      = ["notification"]
  ∧ (Dict.keys
      (CopyResponse.to_dict
        ⟨some ⟨"r1", "t", "d", "c", NotificationStatus.PENDING⟩⟩)).contains
      "is_processing_task" = false := by
  exact ⟨rfl, rfl⟩

/-- Claim C3 amended: a `CopyResponse` wraps only an (effectively optional)
`Notification`; its serialization is the singleton `notification` entry when
the notification is present and the empty dictionary otherwise, and in
particular it never contains an `is_processing_task` key. -/
theorem copyResponse_to_dict_shape (c : CopyResponse) :
    c.to_dict =
      (c.notification.map fun n => ("notification", JValue.obj n.to_dict)).toList
  ∧ (Dict.keys c.to_dict).contains "is_processing_task" = false := by
  cases h : c.notification <;>
    simp [CopyResponse.to_dict, Dict.keys, h]

/-- Claim C4: serializing a `Notification` yields exactly the five documented
keys in order, the `notification_status` entry holds the status's lowercase
string, and that string is one of `pending`, `ready`, `error`. -/
theorem notification_to_dict_keys_and_status (n : Notification) :
    Dict.keys n.to_dict =
      ["notification_request_id", "notification_title", "notification_detail",
       "notification_content", "notification_status"]
  ∧ n.to_dict.lookup "notification_status" = some (JValue.str n.status.value)
  ∧ (n.status.value = "pending" ∨ n.status.value = "ready" ∨
      n.status.value = "error") := by
  refine ⟨rfl, ?_, ?_⟩
  · simp [Notification.to_dict, List.lookup]
  · cases n.status <;> simp [NotificationStatus.value]

/-- Claim C5: `send_push_notification` performs exactly one `send_event`
call, with event name `extension_notification`, to the given device, whose
data is the notification's serialized five-key form plus one added
`extension_id` entry holding this extension's identifier. -/
theorem send_push_notification_single_event
    (e : ExtensionInterface) (d : String) (n : Notification) :
    (e.send_push_notification d n).length = 1
  ∧ (e.send_push_notification d n).map SendEvent.event_name =
      ["extension_notification"]
  ∧ (e.send_push_notification d n).map SendEvent.device_id = [d]
  ∧ (e.send_push_notification d n).map SendEvent.data =
      [n.to_dict ++ [("extension_id", JValue.str e.extension_id)]] :=
  ⟨rfl, rfl, rfl, rfl⟩

/-- Claim C6: serialization is total over the data model; in particular the
(spec-modelled) serialization of an `OnContextResponse` always succeeds and
produces the ordered list of description/context mappings, one two-key entry
per context chunk. -/
theorem onContextResponse_serialization_total (r : OnContextResponse) :
    r.to_list =
      r.contexts.map (fun c =>
        [("description", JValue.str c.description),
         ("context", JValue.str c.context)])
  ∧ r.to_list.length = r.contexts.length
  ∧ (r.to_list.all fun entry =>
      Dict.keys entry == ["description", "context"]) = true := by
  refine ⟨rfl, by simp [OnContextResponse.to_list], ?_⟩
  rw [List.all_eq_true]
  intro entry hentry
  rw [OnContextResponse.to_list, List.mem_map] at hentry
  obtain ⟨c, _, rfl⟩ := hentry
  rfl

/-- Claim C7: directory validation rejects mutual dependency — whenever a
directory contains descriptors `A` and `B` with `A` depending on `B`'s
identifier and `B` depending on `A`'s identifier, validation reports the
directory invalid (a dependency cycle). -/
theorem directory_rejects_mutual_dependency
    (ds : List ExtensionDescriptor) (A B : ExtensionDescriptor)
    (hA : A ∈ ds) (hB : B ∈ ds)
    (hAB : B.extension_id ∈ A.dependencies)
    (hBA : A.extension_id ∈ B.dependencies) :
    validateDirectory ds = false := by
  have hcycle : hasCycle ds = true := by
    rw [hasCycle, List.any_eq_true]
    refine ⟨A, hA, ?_⟩
    rw [List.any_eq_true]
    refine ⟨B.extension_id, hAB, ?_⟩
    obtain ⟨m, hm⟩ : ∃ m, ds.length = m + 1 := by
      cases ds with
      | nil => cases hA
      | cons x t => exact ⟨t.length, rfl⟩
    rw [hm, reachFuel, Bool.or_eq_true]
    right
    rw [List.any_eq_true]
    exact ⟨A.extension_id, mem_depsOf ds B A.extension_id hB hBA,
      reachFuel_self ds m A.extension_id⟩
  rw [validateDirectory, hcycle]
  rfl

/-- Witness for claim C7: the concrete two-descriptor directory where `descA`
and `descB` depend on each other is rejected. -/
theorem directory_rejects_mutual_dependency_witness :
    validateDirectory [descA, descB] = false :=
  directory_rejects_mutual_dependency [descA, descB] descA descB
    (by simp) (by simp) (by simp [descA, descB]) (by simp [descA, descB])

/-- Claim C8: every entity of the data model is a value record whose equality
is structural — two values of the same type are equal exactly when all
corresponding fields are equal. -/
theorem value_records_structural_equality :
    (∀ a b : Notification, a = b ↔
      (a.request_id = b.request_id ∧ a.title = b.title ∧ a.detail = b.detail
        ∧ a.content = b.content ∧ a.status = b.status))
  ∧ (∀ a b : ImmediatePaste, a = b ↔ a.content = b.content)
  ∧ (∀ a b : CopyResponse, a = b ↔ a.notification = b.notification)
  ∧ (∀ a b : PasteResponse, a = b ↔ a.paste = b.paste)
  ∧ (∀ a b : OnContextResponse.ExtensionContext, a = b ↔
      (a.description = b.description ∧ a.context = b.context))
  ∧ (∀ a b : OnContextResponse, a = b ↔ a.contexts = b.contexts)
  ∧ (∀ a b : ExtensionDescriptor, a = b ↔
      (a.extension_id = b.extension_id ∧ a.description = b.description
        ∧ a.dependencies = b.dependencies
        ∧ a.extension_class = b.extension_class)) := by
  refine ⟨?_, ?_, ?_, ?_, ?_, ?_, ?_⟩ <;>
    (intro a b; cases a; cases b; simp)

/-- Claim C9: serializing a `CopyResponse` whose notification is absent does
not fail — it returns the empty dictionary, omitting the `notification`
key. -/
theorem copyResponse_to_dict_none :
    CopyResponse.to_dict ⟨none⟩ = [] := rfl

/-- Claim C10: `send_push_notification` leaves the notification unchanged:
the `extension_id` stamp is appended only to the freshly serialized
dictionary (dropping the appended last entry of the sent data recovers
exactly `n.to_dict`), and the notification's own serialization never contains
an `extension_id` key, so the same notification serializes identically before
and after the call. -/
theorem send_push_notification_preserves_notification
    (e : ExtensionInterface) (d : String) (n : Notification) :
    ((e.send_push_notification d n).map fun ev => ev.data.dropLast) =
      [n.to_dict]
  ∧ (Dict.keys n.to_dict).contains "extension_id" = false := by
  constructor
  · simp [ExtensionInterface.send_push_notification]
  · rfl
